import Mathlib

/-!
Shallow embedding of the "QTI DSP Stealth Driver" kernel module core:
helper functions, the configuration store, the input-injection engine,
the mode controller, the command-channel processor, the heartbeat
watchdog and the worker task, together with theorems settling the
specification claims.

C `int` values are modelled as `Int` (casts from 32-bit payload words go
through `toInt32`, which reduces modulo 2^32 into [-2^31, 2^31)); the
C `unsigned long` values (jiffies, counters, the key-state bitmap) are
modelled as `Nat`, with an explicit 2^64 wraparound where the code relies
on unsigned arithmetic.
-/

/-- Source `stealth_clamp` from the source: clamp `val` into `[min, max]`. -/
def stealth_clamp (val min max : Int) : Int :=
  if val < min then min
  else if val > max then max
  else val

/-- Two's-complement wraparound of a C 32-bit `int`: reduce into
[-2^31, 2^31).  GKI kernels build with -fno-strict-overflow, so signed
`int` arithmetic wraps. -/
def wrap32 (z : Int) : Int := (z + 2 ^ 31) % 2 ^ 32 - 2 ^ 31

/-- Loop of `fast_sqrt`: bit-by-bit binary search.  `n` counts the
remaining iterations; the current bit is `b = 2^(n-1)`, starting from
`b = 1 <<< 15` at `n = 16` exactly as in the source.  The trial square
`y_plus_b * y_plus_b` is C `int` multiplication and wraps: for inputs
at and above 2^30 the wrapped square goes negative and the comparison
accepts every bit. -/
def sqrt_loop (x : Int) : Nat → Int → Int
  | 0, y => y
  | n + 1, y =>
      sqrt_loop x n
        (if wrap32 ((y + 2 ^ n) * (y + 2 ^ n)) ≤ x then y + 2 ^ n else y)

/-- Source `fast_sqrt`: integer square root, 0 for non-positive input,
16-iteration bit-by-bit approximation (with the wrapping trial square)
otherwise. -/
def fast_sqrt (x : Int) : Int :=
  if x ≤ 0 then 0 else sqrt_loop x 16 0

/-- One byte of the (unsigned char) command buffer: out-of-range reads give
0 (the buffer is zero-allocated) and a byte is always < 256. -/
def byteAt (data : List Nat) (i : Nat) : Nat :=
  data.getD i 0 % 256

/-- Source `simple_crc16` from the source: reflected CRC16, polynomial 0xA001,
seed 0xFFFF, bit-at-a-time; `crc` lives in an `unsigned short`. -/
def simple_crc16 (data : List Nat) : Nat :=
  data.foldl
    (fun crc b =>
      (List.range 8).foldl
        (fun c _ => if c % 2 = 1 then (c / 2) ^^^ 0xA001 else c / 2)
        ((crc ^^^ b % 256) % 65536))
    0xFFFF

/-- Source `get_unaligned_le16`: little-endian 16-bit read. -/
def readLE16 (data : List Nat) (off : Nat) : Nat :=
  byteAt data off + byteAt data (off + 1) * 256

/-- Source `get_unaligned_le32`: little-endian 32-bit read. -/
def readLE32 (data : List Nat) (off : Nat) : Nat :=
  byteAt data off + byteAt data (off + 1) * 256 +
    byteAt data (off + 2) * 65536 + byteAt data (off + 3) * 16777216

/-- The C cast `(int)` of a 32-bit unsigned value: two's-complement
reinterpretation into `[-2^31, 2^31)`. -/
def toInt32 (n : Nat) : Int :=
  if n % 2 ^ 32 < 2 ^ 31 then ((n % 2 ^ 32 : Nat) : Int)
  else ((n % 2 ^ 32 : Nat) : Int) - 2 ^ 32

/-- Source `MAGIC_SIGNATURE` ("QDIS"). -/
def MAGIC_SIGNATURE : Nat := 0x51444953

/-- Source `EINVAL`; the processor returns `-EINVAL` on validation failure. -/
def EINVAL : Int := 22

/-- Source `MODE_CURSOR`. -/
def MODE_CURSOR : Int := 0
/-- Source `MODE_VIEW`. -/
def MODE_VIEW : Int := 1
/-- Source `MODE_JOYSTICK`. -/
def MODE_JOYSTICK : Int := 2
/-- Source `MODE_SILENT`. -/
def MODE_SILENT : Int := 3

/-- The `slide_key` sub-structure of `struct stealth_config`. -/
structure SlideKeyState where
  enabled : Int
  trigger_key : Int
  slide_x : Int
  slide_y : Int
  max_radius : Int
  sensitivity : Int
  require_shift : Int
  shift_key : Int
  active : Int
  sliding : Int
  current_x : Int
  current_y : Int
  hold_time : Int
  release_delay : Int
  deriving Repr, DecidableEq

/-- The `cursor` sub-structure of `struct stealth_config`. -/
structure CursorState where
  speed : Int
  left_click_x : Int
  left_click_y : Int
  right_click_x : Int
  right_click_y : Int
  current_x : Int
  current_y : Int
  active : Int
  last_key : Int
  deriving Repr, DecidableEq

/-- The `view` sub-structure of `struct stealth_config`. -/
structure ViewState where
  center_x : Int
  center_y : Int
  max_radius : Int
  deadzone : Int
  sensitivity : Int
  auto_release_time : Int
  active : Int
  current_x : Int
  current_y : Int
  last_dx : Int
  last_dy : Int
  deriving Repr, DecidableEq

/-- The `joystick` sub-structure of `struct stealth_config`;
`key_states` is the `unsigned long` pressed-direction bitmap. -/
structure JoystickState where
  enabled : Int
  center_x : Int
  center_y : Int
  radius : Int
  deadzone : Int
  active : Int
  current_x : Int
  current_y : Int
  move_slot : Int
  key_up : Int
  key_down : Int
  key_left : Int
  key_right : Int
  key_states : Nat
  deriving Repr, DecidableEq

/-- One node of the `key_mapping` linked list.  The C `union params` is
flattened: the code only ever reads the `click` arm when `action = 0` and
the `hold` arm when `action = 1`, and the kernel never writes the union,
so no aliasing is observable. -/
structure KeyMapping where
  keycode : Int
  action : Int
  instant_release : Int
  slot : Int
  click_x : Int
  click_y : Int
  click_duration : Int
  hold_x : Int
  hold_y : Int
  hold_pressure : Int
  deriving Repr, DecidableEq

/-- Source `struct stealth_config`: the single mutable Config Store.
`activate_time` is in jiffies; the four counters are `unsigned long`. -/
structure Config where
  activated : Int
  activate_time : Nat
  screen_width : Int
  screen_height : Int
  max_touch_points : Int
  slide_key : SlideKeyState
  cursor : CursorState
  view : ViewState
  joystick : JoystickState
  keymap_list : List KeyMapping
  current_mode : Int
  jitter_range : Int
  stealth_level : Int
  init_done : Int
  heartbeat_interval : Int
  mode_switch_key : Int
  enable_instant_release : Int
  stats_moves : Nat
  stats_clicks : Nat
  stats_slides : Nat
  stats_commands : Nat
  deriving Repr, DecidableEq

/-- The configuration produced by `stealth_driver_init`: the device object
is zero-allocated (`kzalloc`) and then the listed fields are assigned; all
other fields stay 0 and `keymap_list` stays empty. -/
def initConfig : Config where
  activated := 0
  activate_time := 0
  screen_width := 2800
  screen_height := 2000
  max_touch_points := 10
  slide_key :=
    { enabled := 1, trigger_key := 56, slide_x := 1400, slide_y := 1000
      max_radius := 200, sensitivity := 100, require_shift := 0, shift_key := 0
      active := 0, sliding := 0, current_x := 0, current_y := 0
      hold_time := 50, release_delay := 0 }
  cursor :=
    { speed := 5, left_click_x := 2100, left_click_y := 1800
      right_click_x := 2000, right_click_y := 1800
      current_x := 1400, current_y := 1000, active := 0, last_key := 0 }
  view :=
    { center_x := 1400, center_y := 1000, max_radius := 300, deadzone := 20
      sensitivity := 100, auto_release_time := 0, active := 0
      current_x := 0, current_y := 0, last_dx := 0, last_dy := 0 }
  joystick :=
    { enabled := 1, center_x := 700, center_y := 1500, radius := 150
      deadzone := 10, active := 0, current_x := 0, current_y := 0
      move_slot := 3, key_up := 17, key_down := 31, key_left := 30
      key_right := 32, key_states := 0 }
  keymap_list := []
  current_mode := MODE_SILENT
  jitter_range := 2
  stealth_level := 5
  init_done := 1
  heartbeat_interval := 30
  mode_switch_key := 59
  enable_instant_release := 1
  stats_moves := 0
  stats_clicks := 0
  stats_slides := 0
  stats_commands := 0

/-- What the driver reports to the external input sink.  `contact` is the
pressure > 0 branch of `send_touch_event_safe` (position, pressure, fixed
touch-major 10, tracking id = slot); `liberate` is the pressure = 0 branch
(tracking id −1 for that slot).  Each report is followed by `input_sync`. -/
inductive TouchEvent where
  | contact (slot x y pressure touch_major tracking_id : Int)
  | liberate (slot : Int)
  deriving Repr, DecidableEq

/-- Source `send_touch_event_safe` from the source.  `hasDev` models the
`input_dev` pointer being non-NULL; `randVal` is the `get_random_bytes`
u32 draw used for jitter (only read when `jitter_range > 0` and
`pressure > 0`).  Returns the updated configuration (the call increments
`stats_moves` whenever it emits) and the emitted events. -/
def send_touch_event_safe (hasDev : Bool) (randVal : Nat) (cfg : Config)
    (slot x y pressure : Int) : Config × List TouchEvent :=
  if ¬hasDev ∨ cfg.activated = 0 then (cfg, [])
  else
    let x1 := stealth_clamp x 0 (cfg.screen_width - 1)
    let y1 := stealth_clamp y 0 (cfg.screen_height - 1)
    let p1 := stealth_clamp pressure 0 255
    let xy :=
      if cfg.jitter_range > 0 ∧ p1 > 0 then
        let r := randVal % 2 ^ 32
        let m := ((cfg.jitter_range * 2 + 1).emod (2 ^ 32)).toNat
        let jx : Int := (r % m : Nat) - cfg.jitter_range
        let jy : Int := ((r / 256) % m : Nat) - cfg.jitter_range
        (stealth_clamp (x1 + jx) 0 (cfg.screen_width - 1),
         stealth_clamp (y1 + jy) 0 (cfg.screen_height - 1))
      else (x1, y1)
    let ev :=
      if p1 > 0 then TouchEvent.contact slot xy.1 xy.2 p1 10 slot
      else TouchEvent.liberate slot
    ({ cfg with stats_moves := cfg.stats_moves + 1 }, [ev])

/-- Clear bit `i` of a 64-bit word: `w &= ~(1UL << i)`. -/
def clearBit (w : Nat) (i : Nat) : Nat :=
  w &&& (2 ^ 64 - 1 - 2 ^ i)

/-- The `key_states` bitmap update block of `update_joystick_state`:
the bit of the matching direction key is set on press, cleared on
release; other keycodes leave the bitmap alone. -/
def joystick_toggle (j : JoystickState) (keycode pressed : Int) : Nat :=
  if keycode = j.key_up then
    if pressed ≠ 0 then j.key_states ||| 2 ^ 0 else clearBit j.key_states 0
  else if keycode = j.key_down then
    if pressed ≠ 0 then j.key_states ||| 2 ^ 1 else clearBit j.key_states 1
  else if keycode = j.key_left then
    if pressed ≠ 0 then j.key_states ||| 2 ^ 2 else clearBit j.key_states 2
  else if keycode = j.key_right then
    if pressed ≠ 0 then j.key_states ||| 2 ^ 3 else clearBit j.key_states 3
  else j.key_states

/-- The C `abs()` of an `int`: negation wraps at INT_MIN. -/
def abs32 (v : Int) : Int := if v < 0 then wrap32 (0 - v) else v

/-- The displacement recomputation of `update_joystick_state`: each
active direction bit contributes ±radius to its axis by a sequential
wrapping `int` add/subtract (opposite directions cancel), then any axis
below `deadzone` in magnitude is zeroed.  Returns (dx, dy). -/
def joystick_disp (radius deadzone : Int) (ks : Nat) : Int × Int :=
  let dyA : Int := if ks &&& 2 ^ 0 ≠ 0 then wrap32 (0 - radius) else 0
  let dy0 : Int := if ks &&& 2 ^ 1 ≠ 0 then wrap32 (dyA + radius) else dyA
  let dxA : Int := if ks &&& 2 ^ 2 ≠ 0 then wrap32 (0 - radius) else 0
  let dx0 : Int := if ks &&& 2 ^ 3 ≠ 0 then wrap32 (dxA + radius) else dxA
  (if abs32 dx0 < deadzone then 0 else dx0,
   if abs32 dy0 < deadzone then 0 else dy0)

/-- Source `update_joystick_state`: toggle the direction bit for
`keycode`, recompute the displacement from scratch, apply the deadzone,
clamp onto the radius circle with `fast_sqrt`, and inject (or release)
at `move_slot`.  Every `int` addition, multiplication and sum wraps
modulo 2^32 as in the C. -/
def update_joystick_state (hasDev : Bool) (randVal : Nat) (cfg : Config)
    (keycode pressed : Int) : Config × List TouchEvent :=
  if cfg.joystick.enabled = 0 ∨ cfg.current_mode ≠ MODE_JOYSTICK then (cfg, [])
  else
    let ks := joystick_toggle cfg.joystick keycode pressed
    let cfg := { cfg with joystick := { cfg.joystick with key_states := ks } }
    let dxy := joystick_disp cfg.joystick.radius cfg.joystick.deadzone ks
    let dx := dxy.1
    let dy := dxy.2
    if dx ≠ 0 ∨ dy ≠ 0 then
      let cx := wrap32 (cfg.joystick.center_x + dx)
      let cy := wrap32 (cfg.joystick.center_y + dy)
      let dist_x := wrap32 (cx - cfg.joystick.center_x)
      let dist_y := wrap32 (cy - cfg.joystick.center_y)
      let distance := fast_sqrt
        (wrap32 (wrap32 (dist_x * dist_x) + wrap32 (dist_y * dist_y)))
      let fin :=
        if distance > cfg.joystick.radius then
          (wrap32 (cfg.joystick.center_x +
             (wrap32 (dist_x * cfg.joystick.radius)).tdiv distance),
           wrap32 (cfg.joystick.center_y +
             (wrap32 (dist_y * cfg.joystick.radius)).tdiv distance))
        else (cx, cy)
      let cfg := { cfg with joystick :=
        { cfg.joystick with current_x := fin.1, current_y := fin.2, active := 1 } }
      send_touch_event_safe hasDev randVal cfg cfg.joystick.move_slot
        cfg.joystick.current_x cfg.joystick.current_y 100
    else if cfg.joystick.active ≠ 0 then
      let cfg := { cfg with joystick := { cfg.joystick with active := 0 } }
      send_touch_event_safe hasDev randVal cfg cfg.joystick.move_slot 0 0 0
    else (cfg, [])

/-- The `while (km)` traversal of the key-mapping list inside
`handle_key_mapping`: first node whose `keycode` matches wins and the
loop breaks; `r0`/`r1` are the jitter draws for the (up to two)
injections. -/
def keymap_walk (hasDev : Bool) (r0 r1 : Nat) (cfg : Config)
    (keycode pressed : Int) : List KeyMapping → Config × List TouchEvent
  | [] => (cfg, [])
  | km :: rest =>
    if km.keycode = keycode then
      if pressed ≠ 0 then
        if km.action = 0 then
          let s1 := send_touch_event_safe hasDev r0 cfg km.slot
            km.click_x km.click_y 100
          let s2 := send_touch_event_safe hasDev r1 s1.1 km.slot
            km.click_x km.click_y 0
          (s2.1, s1.2 ++ s2.2)
        else if km.action = 1 then
          send_touch_event_safe hasDev r0 cfg km.slot
            km.hold_x km.hold_y km.hold_pressure
        else (cfg, [])
      else if km.instant_release ≠ 0 then
        send_touch_event_safe hasDev r0 cfg km.slot 0 0 0
      else (cfg, [])
    else keymap_walk hasDev r0 r1 cfg keycode pressed rest

/-- Source `handle_key_mapping` from the source: mode-switch key first (press
only, consumes the event), then the per-mode handling (joystick or the
cursor double-press tap), then the key-mapping list.  `rands` supplies
the jitter draws in call order. -/
def handle_key_mapping (hasDev : Bool) (rands : List Nat) (cfg : Config)
    (keycode pressed : Int) : Config × List TouchEvent :=
  if keycode = cfg.mode_switch_key ∧ pressed ≠ 0 then
    ({ cfg with current_mode := (cfg.current_mode + 1).tmod 4 }, [])
  else
    let step1 : Config × List TouchEvent :=
      if cfg.current_mode = MODE_JOYSTICK then
        update_joystick_state hasDev (rands.getD 0 0) cfg keycode pressed
      else if cfg.current_mode = MODE_CURSOR then
        if keycode = cfg.cursor.last_key ∧ pressed ≠ 0 then
          let s1 := send_touch_event_safe hasDev (rands.getD 0 0) cfg 0
            cfg.cursor.current_x cfg.cursor.current_y 100
          let s2 := send_touch_event_safe hasDev (rands.getD 1 0) s1.1 0
            s1.1.cursor.current_x s1.1.cursor.current_y 0
          ({ s2.1 with cursor :=
              { s2.1.cursor with active := 0, last_key := keycode } },
           s1.2 ++ s2.2)
        else
          ({ cfg with cursor := { cfg.cursor with last_key := keycode } }, [])
      else (cfg, [])
    let step2 := keymap_walk hasDev (rands.getD 2 0) (rands.getD 3 0)
      step1.1 keycode pressed step1.1.keymap_list
    (step2.1, step1.2 ++ step2.2)

/-- The CMD_SET_JOYSTICK payload walk: u32 fields are read in order
(center_x, center_y, radius, deadzone, move_slot, enabled), each only if
the buffer still contains it; the running offset starts at 7. -/
def joystick_apply (data : List Nat) (j : JoystickState) : JoystickState :=
  let l := data.length
  let p : Nat × JoystickState := (7, j)
  let p := if p.1 + 4 ≤ l then
    (p.1 + 4, { p.2 with center_x := toInt32 (readLE32 data p.1) }) else p
  let p := if p.1 + 4 ≤ l then
    (p.1 + 4, { p.2 with center_y := toInt32 (readLE32 data p.1) }) else p
  let p := if p.1 + 4 ≤ l then
    (p.1 + 4, { p.2 with radius := toInt32 (readLE32 data p.1) }) else p
  let p := if p.1 + 4 ≤ l then
    (p.1 + 4, { p.2 with deadzone := toInt32 (readLE32 data p.1) }) else p
  let p := if p.1 + 4 ≤ l then
    (p.1 + 4, { p.2 with move_slot := toInt32 (readLE32 data p.1) }) else p
  let p := if p.1 + 4 ≤ l then
    (p.1 + 4, { p.2 with enabled := toInt32 (readLE32 data p.1) }) else p
  p.2

/-- The CMD_SET_SLIDE_KEY payload walk: u32 fields in order (enabled,
trigger_key, slide_x, slide_y, max_radius, sensitivity, hold_time,
release_delay), progressive-prefix exactly as in the source. -/
def slide_apply (data : List Nat) (s : SlideKeyState) : SlideKeyState :=
  let l := data.length
  let p : Nat × SlideKeyState := (7, s)
  let p := if p.1 + 4 ≤ l then
    (p.1 + 4, { p.2 with enabled := toInt32 (readLE32 data p.1) }) else p
  let p := if p.1 + 4 ≤ l then
    (p.1 + 4, { p.2 with trigger_key := toInt32 (readLE32 data p.1) }) else p
  let p := if p.1 + 4 ≤ l then
    (p.1 + 4, { p.2 with slide_x := toInt32 (readLE32 data p.1) }) else p
  let p := if p.1 + 4 ≤ l then
    (p.1 + 4, { p.2 with slide_y := toInt32 (readLE32 data p.1) }) else p
  let p := if p.1 + 4 ≤ l then
    (p.1 + 4, { p.2 with max_radius := toInt32 (readLE32 data p.1) }) else p
  let p := if p.1 + 4 ≤ l then
    (p.1 + 4, { p.2 with sensitivity := toInt32 (readLE32 data p.1) }) else p
  let p := if p.1 + 4 ≤ l then
    (p.1 + 4, { p.2 with hold_time := toInt32 (readLE32 data p.1) }) else p
  let p := if p.1 + 4 ≤ l then
    (p.1 + 4, { p.2 with release_delay := toInt32 (readLE32 data p.1) }) else p
  p.2

/-- The command switch of `process_hidden_command` (after validation):
returns the C return value of the dispatch and the mutated
configuration, before the command-counter update. -/
def dispatch_command (data : List Nat) (now : Nat) (cfg : Config) :
    Int × Config :=
  let cmd := byteAt data 6
  if cmd = 0xA8 then
    (0, { cfg with activated := 1, activate_time := now })
  else if cmd = 0xA9 then
    (0, { cfg with activated := 0 })
  else if cmd = 0xAA then
    (0, { cfg with activate_time := now })
  else if cmd = 0xA6 then
    if data.length < 15 then (-EINVAL, cfg)
    else (0, { cfg with
                current_mode := toInt32 (readLE32 data 7)
                jitter_range := toInt32 (readLE32 data 11) })
  else if cmd = 0xA4 then
    if data.length < 11 then (-EINVAL, cfg)
    else (0, { cfg with current_mode := toInt32 (readLE32 data 7) })
  else if cmd = 0xA3 then
    if data.length < 11 then (-EINVAL, cfg)
    else (0, { cfg with view := { cfg.view with
      sensitivity := stealth_clamp (toInt32 (readLE32 data 7)) 1 10000 } })
  else if cmd = 0xA5 then
    (0, { cfg with joystick := joystick_apply data cfg.joystick })
  else if cmd = 0xA1 then
    (0, { cfg with slide_key := slide_apply data cfg.slide_key })
  else if cmd = 0xA2 then
    if 11 ≤ data.length then
      (0, if readLE32 data 7 ≠ 0 then
            { cfg with stats_clicks := cfg.stats_clicks + 1 }
          else cfg)
    else (-EINVAL, cfg)
  else (-EINVAL, cfg)

/-- Source `process_hidden_command` from the source.  `now` is the current
jiffies value.  Returns the C return value (0 or `-EINVAL`) together with
the configuration after the call; a successful dispatch increments
`stats_commands` exactly once. -/
def process_hidden_command (data : List Nat) (now : Nat) (cfg : Config) :
    Int × Config :=
  if data.length < 7 then (-EINVAL, cfg)
  else if readLE32 data 0 ≠ MAGIC_SIGNATURE then (-EINVAL, cfg)
  else if readLE16 data 4 ≠ simple_crc16 (data.drop 6) then (-EINVAL, cfg)
  else
    let rc := dispatch_command data now cfg
    if rc.1 = 0 then
      (rc.1, { rc.2 with stats_commands := rc.2.stats_commands + 1 })
    else rc

/-- Source `heartbeat_timer_callback` from the source, as a pure state update
(the re-arming of the timer does not touch the configuration).  `hz` is
the kernel `HZ` constant and `now` the current jiffies; `interval` is the
`unsigned long` difference `now - activate_time`, and the comparison uses
`(unsigned long)heartbeat_interval * HZ`, all modulo 2^64. -/
def heartbeat_timer_callback (hz now : Nat) (cfg : Config) : Config :=
  if cfg.activated ≠ 0 then
    let interval := (now + (2 ^ 64 - cfg.activate_time % 2 ^ 64)) % 2 ^ 64
    let hb := ((cfg.heartbeat_interval.emod (2 ^ 64)).toNat) % 2 ^ 64
    if 0 < hb ∧ hb * hz % 2 ^ 64 < interval then { cfg with activated := 0 }
    else cfg
  else cfg

/-- One iteration of the `stealth_worker` loop body: reset the four
counters when `stats_commands` exceeds 10000. -/
def stealth_worker_tick (cfg : Config) : Config :=
  if 10000 < cfg.stats_commands then
    { cfg with stats_moves := 0, stats_clicks := 0, stats_slides := 0,
               stats_commands := 0 }
  else cfg

/-- The operations that touch the Config Store after initialization: a
write dispatched to the Command Channel Processor, a hardware key event,
a watchdog tick and a worker iteration. -/
inductive Op where
  | cmd (data : List Nat) (now : Nat)
  | key (hasDev : Bool) (rands : List Nat) (keycode pressed : Int)
  | timer (hz now : Nat)
  | work

/-- The state transition of one operation. -/
def stepOp (cfg : Config) : Op → Config
  | .cmd data now => (process_hidden_command data now cfg).2
  | .key hasDev rands keycode pressed =>
      (handle_key_mapping hasDev rands cfg keycode pressed).1
  | .timer hz now => heartbeat_timer_callback hz now cfg
  | .work => stealth_worker_tick cfg

/-- An operation is mode-safe when any SET_MODE / SET_CONFIG frame it
carries holds a mode word below 4. -/
def modeSafe : Op → Prop
  | .cmd data _ => (byteAt data 6 = 0xA4 ∨ byteAt data 6 = 0xA6) →
      readLE32 data 7 < 4
  | _ => True

/-- Configurations reachable from initialization by mode-safe
operations. -/
inductive ReachSafe : Config → Prop where
  | init : ReachSafe initConfig
  | step {c : Config} (h : ReachSafe c) (op : Op) (hs : modeSafe op) :
      ReachSafe (stepOp c op)

/-- Clamping into a non-empty interval lands in the interval. -/
theorem stealth_clamp_bounds (v lo hi : Int) (h : lo ≤ hi) :
    lo ≤ stealth_clamp v lo hi ∧ stealth_clamp v lo hi ≤ hi := by
  unfold stealth_clamp
  split_ifs <;> omega

/-- The injection engine never changes the `joystick` sub-state. -/
@[simp] theorem send_fst_joystick (hasDev : Bool) (randVal : Nat)
    (cfg : Config) (slot x y pressure : Int) :
    (send_touch_event_safe hasDev randVal cfg slot x y pressure).1.joystick =
      cfg.joystick := by
  rw [send_touch_event_safe]
  split_ifs <;> rfl

/-- The injection engine never changes the `cursor` sub-state. -/
@[simp] theorem send_fst_cursor (hasDev : Bool) (randVal : Nat)
    (cfg : Config) (slot x y pressure : Int) :
    (send_touch_event_safe hasDev randVal cfg slot x y pressure).1.cursor =
      cfg.cursor := by
  rw [send_touch_event_safe]
  split_ifs <;> rfl

/-- The injection engine never changes `current_mode`. -/
@[simp] theorem send_fst_current_mode (hasDev : Bool) (randVal : Nat)
    (cfg : Config) (slot x y pressure : Int) :
    (send_touch_event_safe hasDev randVal cfg slot x y pressure).1.current_mode =
      cfg.current_mode := by
  rw [send_touch_event_safe]
  split_ifs <;> rfl

/-- The injection engine never changes the key-mapping list. -/
@[simp] theorem send_fst_keymap (hasDev : Bool) (randVal : Nat)
    (cfg : Config) (slot x y pressure : Int) :
    (send_touch_event_safe hasDev randVal cfg slot x y pressure).1.keymap_list =
      cfg.keymap_list := by
  rw [send_touch_event_safe]
  split_ifs <;> rfl

/-- C1: a buffer shorter than 7 bytes, a wrong magic word, or a wrong
CRC16 over bytes `[6, len)` makes `process_hidden_command` fail with
`-EINVAL` (the checks are made in that order in the definition) and
return the Config Store exactly as it was, counters included. -/
theorem claim_C1_validation_failure_rejected_state_unchanged
    (data : List Nat) (now : Nat) (cfg : Config)
    (h : data.length < 7 ∨ readLE32 data 0 ≠ MAGIC_SIGNATURE ∨
      readLE16 data 4 ≠ simple_crc16 (data.drop 6)) :
    process_hidden_command data now cfg = (-EINVAL, cfg) := by
  unfold process_hidden_command
  rcases h with h | h | h
  · simp [h]
  · by_cases hl : data.length < 7 <;> simp [hl, h]
  · by_cases hl : data.length < 7
    · simp [hl]
    · by_cases hm : readLE32 data 0 = MAGIC_SIGNATURE <;> simp [hl, hm, h]

/-- Witness for C1 at the concrete empty buffer. -/
theorem claim_C1_witness :
    process_hidden_command [] 0 initConfig = (-EINVAL, initConfig) :=
  claim_C1_validation_failure_rejected_state_unchanged [] 0 initConfig
    (Or.inl (by decide))

/-- C2: with the activation flag down, `send_touch_event_safe` emits no
event of any kind, for every slot, position and pressure. -/
theorem claim_C2_inactive_never_emits (hasDev : Bool) (randVal : Nat)
    (cfg : Config) (slot x y pressure : Int) (h : cfg.activated = 0) :
    (send_touch_event_safe hasDev randVal cfg slot x y pressure).2 = [] := by
  rw [send_touch_event_safe]
  simp [h]

/-- Witness for C2 at the freshly initialized configuration. -/
theorem claim_C2_witness :
    (send_touch_event_safe true 0 initConfig 0 5 5 100).2 = [] :=
  claim_C2_inactive_never_emits true 0 initConfig 0 5 5 100 rfl

/-- C3: whenever the injection engine reports a contact (service activated,
sink present), its coordinates lie in `[0, width-1] × [0, height-1]`,
jitter included; see the witness for the 2800×2000 example where a request
at (5000, −100) is emitted at (2799, 0). -/
theorem claim_C3_emitted_coordinates_clamped (hasDev : Bool) (randVal : Nat)
    (cfg : Config) (slot x y pressure : Int)
    (hw : 0 < cfg.screen_width) (hh : 0 < cfg.screen_height)
    (s x1 y1 p tm tid : Int)
    (hmem : TouchEvent.contact s x1 y1 p tm tid ∈
      (send_touch_event_safe hasDev randVal cfg slot x y pressure).2) :
    0 ≤ x1 ∧ x1 ≤ cfg.screen_width - 1 ∧
      0 ≤ y1 ∧ y1 ≤ cfg.screen_height - 1 := by
  have hw1 : (0 : Int) ≤ cfg.screen_width - 1 := by omega
  have hh1 : (0 : Int) ≤ cfg.screen_height - 1 := by omega
  simp only [send_touch_event_safe] at hmem
  by_cases hg : ¬hasDev ∨ cfg.activated = 0
  · rw [if_pos hg] at hmem
    simp at hmem
  · rw [if_neg hg] at hmem
    by_cases hp : stealth_clamp pressure 0 255 > 0
    · rw [if_pos hp] at hmem
      simp only [List.mem_singleton, TouchEvent.contact.injEq] at hmem
      obtain ⟨-, hx, hy, -, -, -⟩ := hmem
      have hx' : ∃ v, x1 = stealth_clamp v 0 (cfg.screen_width - 1) := by
        rw [hx]; split
        · exact ⟨_, rfl⟩
        · exact ⟨_, rfl⟩
      have hy' : ∃ v, y1 = stealth_clamp v 0 (cfg.screen_height - 1) := by
        rw [hy]; split
        · exact ⟨_, rfl⟩
        · exact ⟨_, rfl⟩
      obtain ⟨vx, hvx⟩ := hx'
      obtain ⟨vy, hvy⟩ := hy'
      subst hvx; subst hvy
      exact ⟨(stealth_clamp_bounds _ _ _ hw1).1, (stealth_clamp_bounds _ _ _ hw1).2,
        (stealth_clamp_bounds _ _ _ hh1).1, (stealth_clamp_bounds _ _ _ hh1).2⟩
    · rw [if_neg hp] at hmem
      simp at hmem

/-- Witness for C3: screen 2800×2000, jitter disabled, a request at
(5000, −100) is emitted as a contact at (2799, 0), and the theorem gives
the bounds at those inputs. -/
theorem claim_C3_witness :
    (send_touch_event_safe true 0
        { initConfig with activated := 1, jitter_range := 0 }
        1 5000 (-100) 100).2 =
      [TouchEvent.contact 1 2799 0 100 10 1] ∧
    (0 ≤ (2799 : Int) ∧ (2799 : Int) ≤ 2800 - 1 ∧
      0 ≤ (0 : Int) ∧ (0 : Int) ≤ 2000 - 1) :=
  ⟨by decide,
   claim_C3_emitted_coordinates_clamped true 0
     { initConfig with activated := 1, jitter_range := 0 }
     1 5000 (-100) 100 (by decide) (by decide) 1 2799 0 100 10 1 (by decide)⟩

/-- Wrapping is the identity inside the `int` range. -/
theorem wrap32_eq_self (z : Int) (h1 : -2 ^ 31 ≤ z) (h2 : z < 2 ^ 31) :
    wrap32 z = z := by
  unfold wrap32
  have e1 : (2 : Int) ^ 31 = 2147483648 := by norm_num
  have e2 : (2 : Int) ^ 32 = 4294967296 := by norm_num
  rw [e1, e2] at *
  omega

/-- Wrapping a value in [2^31, 2^32) overflows to `z - 2^32`. -/
theorem wrap32_high (z : Int) (h1 : 2 ^ 31 ≤ z) (h2 : z < 2 ^ 32) :
    wrap32 z = z - 2 ^ 32 := by
  unfold wrap32
  have e1 : (2 : Int) ^ 31 = 2147483648 := by norm_num
  have e2 : (2 : Int) ^ 32 = 4294967296 := by norm_num
  rw [e1, e2] at *
  omega

/-- The `fast_sqrt` loop invariant in the wrap-free regime: starting
from a partial root `y` with `y² ≤ x < (y + 2^n)²` and `y + 2^n ≤ 2^15`
(so every trial square stays below 2^31 and never wraps), the remaining
`n` iterations return the exact integer square root. -/
theorem sqrt_loop_isqrt (x : Int) : ∀ n y, 0 ≤ y → y * y ≤ x →
    x < (y + 2 ^ n) * (y + 2 ^ n) → y + 2 ^ n ≤ 2 ^ 15 →
    0 ≤ sqrt_loop x n y ∧ sqrt_loop x n y * sqrt_loop x n y ≤ x ∧
      x < (sqrt_loop x n y + 1) * (sqrt_loop x n y + 1) := by
  intro n
  induction n with
  | zero =>
    intro y hy h1 h2 _
    rw [sqrt_loop]
    refine ⟨hy, h1, ?_⟩
    simpa using h2
  | succ n ih =>
    intro y hy h1 h2 hbound
    have hc0 : (0 : Int) ≤ y + 2 ^ n := by positivity
    have hcb : y + 2 ^ n ≤ 2 ^ 15 := by
      have : (2 : Int) ^ n ≤ 2 ^ (n + 1) :=
        pow_le_pow_right₀ (by norm_num) (Nat.le_succ n)
      omega
    have hw : wrap32 ((y + 2 ^ n) * (y + 2 ^ n)) =
        (y + 2 ^ n) * (y + 2 ^ n) := by
      apply wrap32_eq_self
      · nlinarith [mul_self_nonneg (y + 2 ^ n)]
      · nlinarith [hc0, hcb]
    rw [sqrt_loop, hw]
    split_ifs with h
    · refine ih (y + 2 ^ n) (by positivity) h ?_ ?_
      · have : y + 2 ^ n + 2 ^ n = y + 2 ^ (n + 1) := by ring
        rw [this]
        exact h2
      · have : y + 2 ^ n + 2 ^ n = y + 2 ^ (n + 1) := by ring
        rw [this]
        exact hbound
    · exact ih y hy h1 (by omega) hcb

/-- Source `fast_sqrt` on `[0, 2^30)` — the range where no trial square
overflows — satisfies the integer-square-root characterization. -/
theorem fast_sqrt_isqrt (x : Int) (h0 : 0 ≤ x) (h30 : x < 2 ^ 30) :
    0 ≤ fast_sqrt x ∧ fast_sqrt x * fast_sqrt x ≤ x ∧
      x < (fast_sqrt x + 1) * (fast_sqrt x + 1) := by
  unfold fast_sqrt
  split_ifs with h
  · refine ⟨le_refl 0, by simpa using h0, ?_⟩
    have : x = 0 := le_antisymm h h0
    simp [this]
  · have hw : wrap32 ((0 + 2 ^ 15) * (0 + 2 ^ 15)) =
        (0 + 2 ^ 15) * (0 + 2 ^ 15) := by
      apply wrap32_eq_self <;> norm_num
    have hcond : ¬wrap32 ((0 + 2 ^ 15) * (0 + 2 ^ 15)) ≤ x := by
      rw [hw]
      norm_num
      omega
    rw [show (16 : Nat) = 15 + 1 from rfl, sqrt_loop, if_neg hcond]
    refine sqrt_loop_isqrt x 15 0 (le_refl 0) (by simpa using h0) ?_
      (by norm_num)
    norm_num
    omega

/-- Once every remaining trial square wraps (or, at bit 15, succeeds
because x ≥ 2^30), the loop accepts every bit: from the state
`y = 2^16 - 2^m` it returns 65535. -/
theorem sqrt_loop_all_ones (x : Int) (hlo : 2 ^ 30 ≤ x) :
    ∀ m, m ≤ 15 → sqrt_loop x m (2 ^ 16 - 2 ^ m) = 65535 := by
  intro m
  induction m with
  | zero =>
    intro _
    rw [sqrt_loop]
    norm_num
  | succ m ih =>
    intro hm
    have hcand : (2 : Int) ^ 16 - 2 ^ (m + 1) + 2 ^ m = 2 ^ 16 - 2 ^ m := by
      have : (2 : Int) ^ (m + 1) = 2 ^ m * 2 := pow_succ 2 m
      rw [this]
      ring
    have hp1 : (1 : Int) ≤ 2 ^ m := by
      have := pow_pos (show (0 : Int) < 2 by norm_num) m
      omega
    have hp14 : (2 : Int) ^ m ≤ 2 ^ 14 := by
      have h14 : m ≤ 14 := by omega
      exact pow_le_pow_right₀ (by norm_num) h14
    rw [sqrt_loop, hcand]
    have hcl : (49152 : Int) ≤ 2 ^ 16 - 2 ^ m := by
      have e16 : (2 : Int) ^ 16 = 65536 := by norm_num
      have e14 : (2 : Int) ^ 14 = 16384 := by norm_num
      rw [e16]
      rw [e14] at hp14
      omega
    have hch : (2 : Int) ^ 16 - 2 ^ m ≤ 65535 := by
      have e16 : (2 : Int) ^ 16 = 65536 := by norm_num
      rw [e16]
      omega
    have hcond : wrap32 ((2 ^ 16 - 2 ^ m) * (2 ^ 16 - 2 ^ m)) ≤ x := by
      have hw : wrap32 ((2 ^ 16 - 2 ^ m) * (2 ^ 16 - 2 ^ m)) =
          (2 ^ 16 - 2 ^ m) * (2 ^ 16 - 2 ^ m) - 2 ^ 32 := by
        apply wrap32_high
        · nlinarith [hcl]
        · nlinarith [hch]
      rw [hw]
      nlinarith [hch, hlo]
    rw [if_pos hcond]
    exact ih (by omega)

/-- Source `fast_sqrt` on `[2^30, 2^31)`: the trial square wraps
negative at every bit after the first, so the driver returns 65535. -/
theorem fast_sqrt_high (x : Int) (h1 : 2 ^ 30 ≤ x) (h2 : x < 2 ^ 31) :
    fast_sqrt x = 65535 := by
  unfold fast_sqrt
  rw [if_neg (by omega)]
  have hw : wrap32 ((0 + 2 ^ 15) * (0 + 2 ^ 15)) =
      (0 + 2 ^ 15) * (0 + 2 ^ 15) := by
    apply wrap32_eq_self <;> norm_num
  have hcond : wrap32 ((0 + 2 ^ 15) * (0 + 2 ^ 15)) ≤ x := by
    rw [hw]
    norm_num
    omega
  rw [show (16 : Nat) = 15 + 1 from rfl, sqrt_loop, if_pos hcond]
  have : (0 : Int) + 2 ^ 15 = 2 ^ 16 - 2 ^ 15 := by norm_num
  rw [this]
  exact sqrt_loop_all_ones x h1 15 (le_refl 15)

set_option maxRecDepth 10000 in
/-- Counterexample for C9 as stated: at x = 2^30 the driver's wrapping
trial square (`y_plus_b * y_plus_b` is C `int`) makes `fast_sqrt`
return 65535, not floor(sqrt(2^30)) = 32768. -/
theorem claim_C9_counterexample :
    fast_sqrt 1073741824 = 65535 ∧
    fast_sqrt 1073741824 ≠ (Nat.sqrt (Int.toNat 1073741824) : Int) := by
  constructor
  · decide
  · have h1 : Int.toNat 1073741824 = 1073741824 := rfl
    have h2 : Nat.sqrt 1073741824 = 32768 := by
      rw [show (1073741824 : Nat) = 32768 * 32768 from by norm_num]
      exact Nat.sqrt_eq 32768
    rw [h1, h2]
    decide

/-- C9 (amended): `fast_sqrt` returns 0 on non-positive input; the floor
of the square root (`Nat.sqrt`, exact on perfect squares) for
0 < x < 2^30; and the overflow artifact 65535 for every
x in [2^30, 2^31), where the trial square wraps. -/
theorem claim_C9_fast_sqrt_piecewise (x : Int) :
    (x ≤ 0 → fast_sqrt x = 0) ∧
    (0 < x → x < 2 ^ 30 →
      fast_sqrt x * fast_sqrt x ≤ x ∧
      x < (fast_sqrt x + 1) * (fast_sqrt x + 1) ∧
      fast_sqrt x = (Nat.sqrt x.toNat : Int)) ∧
    (2 ^ 30 ≤ x → x < 2 ^ 31 → fast_sqrt x = 65535) := by
  refine ⟨?_, ?_, fun h1 h2 => fast_sqrt_high x h1 h2⟩
  · intro h
    unfold fast_sqrt
    rw [if_pos h]
  · intro h h30
    obtain ⟨hr0, hr1, hr2⟩ := fast_sqrt_isqrt x (le_of_lt h) h30
    refine ⟨hr1, hr2, ?_⟩
    set r := fast_sqrt x with hr
    have h1 : r.toNat * r.toNat ≤ x.toNat := by
      have : ((r.toNat * r.toNat : Nat) : Int) ≤ ((x.toNat : Nat) : Int) := by
        push_cast
        rw [Int.toNat_of_nonneg hr0, Int.toNat_of_nonneg (le_of_lt h)]
        exact hr1
      exact_mod_cast this
    have h2 : x.toNat < (r.toNat + 1) * (r.toNat + 1) := by
      have : ((x.toNat : Nat) : Int) <
          (((r.toNat + 1) * (r.toNat + 1) : Nat) : Int) := by
        push_cast
        rw [Int.toNat_of_nonneg hr0, Int.toNat_of_nonneg (le_of_lt h)]
        exact hr2
      exact_mod_cast this
    have : r.toNat = Nat.sqrt x.toNat := Nat.eq_sqrt.2 ⟨h1, h2⟩
    rw [← this, Int.toNat_of_nonneg hr0]

set_option maxRecDepth 10000 in
/-- Witness for C9 on all three regimes: negative input, the floor case
x = 10, and the overflow case x = 2^30. -/
theorem claim_C9_witness :
    fast_sqrt (-5) = 0 ∧
    fast_sqrt 10 = (Nat.sqrt (Int.toNat 10) : Int) ∧
    fast_sqrt 1073741824 = 65535 :=
  ⟨(claim_C9_fast_sqrt_piecewise (-5)).1 (by norm_num),
   ((claim_C9_fast_sqrt_piecewise 10).2.1 (by norm_num) (by norm_num)).2.2,
   (claim_C9_fast_sqrt_piecewise 1073741824).2.2 (by norm_num) (by norm_num)⟩

/-- C7: a watchdog tick deactivates the service exactly when it is
activated and the jiffies elapsed since `activate_time` exceed
`heartbeat_interval * HZ`; in every other case the tick changes nothing.
The side conditions pin the values to the ranges they actually have at
runtime (a C `int` interval, jiffies below 2^64 with no wraparound in
the window). -/
theorem claim_C7_watchdog_deactivation (hz now : Nat) (cfg : Config)
    (hhb : 0 < cfg.heartbeat_interval)
    (hhb2 : cfg.heartbeat_interval < 2 ^ 31)
    (hat : cfg.activate_time ≤ now)
    (hd : now - cfg.activate_time < 2 ^ 64)
    (hat2 : cfg.activate_time < 2 ^ 64)
    (hmul : cfg.heartbeat_interval.toNat * hz < 2 ^ 64) :
    (cfg.activated ≠ 0 →
      cfg.heartbeat_interval.toNat * hz < now - cfg.activate_time →
      heartbeat_timer_callback hz now cfg = { cfg with activated := 0 }) ∧
    (cfg.activated ≠ 0 →
      ¬cfg.heartbeat_interval.toNat * hz < now - cfg.activate_time →
      heartbeat_timer_callback hz now cfg = cfg) ∧
    (cfg.activated = 0 → heartbeat_timer_callback hz now cfg = cfg) := by
  have hbig : (2 : Nat) ^ 64 = 18446744073709551616 := by norm_num
  have hbigi : (2 : Int) ^ 64 = 18446744073709551616 := by norm_num
  rw [hbig] at hd hat2 hmul
  have h31 : (2 : Int) ^ 31 = 2147483648 := by norm_num
  rw [h31] at hhb2
  have hbeq : ((cfg.heartbeat_interval.emod (2 ^ 64)).toNat) % 2 ^ 64 =
      cfg.heartbeat_interval.toNat := by
    have h1 : cfg.heartbeat_interval.emod (2 ^ 64) = cfg.heartbeat_interval := by
      apply Int.emod_eq_of_lt (by omega)
      rw [hbigi]
      omega
    rw [h1, hbig]
    apply Nat.mod_eq_of_lt
    omega
  have iveq : (now + (2 ^ 64 - cfg.activate_time % 2 ^ 64)) % 2 ^ 64 =
      now - cfg.activate_time := by
    rw [hbig]
    omega
  have muleq : cfg.heartbeat_interval.toNat * hz % 2 ^ 64 =
      cfg.heartbeat_interval.toNat * hz := by
    rw [hbig]
    exact Nat.mod_eq_of_lt hmul
  have hb0 : 0 < cfg.heartbeat_interval.toNat := by omega
  refine ⟨?_, ?_, ?_⟩
  · intro ha hlt
    simp only [heartbeat_timer_callback, hbeq, iveq, muleq]
    rw [if_pos ha, if_pos ⟨hb0, hlt⟩]
  · intro ha hnlt
    simp only [heartbeat_timer_callback, hbeq, iveq, muleq]
    rw [if_pos ha, if_neg (fun hc => hnlt hc.2)]
  · intro ha
    simp only [heartbeat_timer_callback]
    rw [if_neg (by simp [ha])]

/-- Witness for C7: interval 30 s, HZ = 100.  A tick 31 s after
activation deactivates; after a HEARTBEAT 20 s in, a tick at 49 s leaves
the service activated. -/
theorem claim_C7_witness :
    heartbeat_timer_callback 100 8100
        { initConfig with activated := 1, activate_time := 5000 } =
      { { initConfig with activated := 1, activate_time := 5000 } with
          activated := 0 } ∧
    heartbeat_timer_callback 100 9900
        { initConfig with activated := 1, activate_time := 7000 } =
      { initConfig with activated := 1, activate_time := 7000 } :=
  ⟨(claim_C7_watchdog_deactivation 100 8100
      { initConfig with activated := 1, activate_time := 5000 }
      (by decide) (by decide) (by decide) (by decide) (by decide)
      (by decide)).1 (by decide) (by decide),
   (claim_C7_watchdog_deactivation 100 9900
      { initConfig with activated := 1, activate_time := 7000 }
      (by decide) (by decide) (by decide) (by decide) (by decide)
      (by decide)).2.1 (by decide) (by decide)⟩

/-- Progressive-prefix characterization of the SET_JOYSTICK payload walk:
with `len = 7 + 4K + r` (`r < 4` trailing bytes), exactly the first `K`
of the six fields are overwritten with the corresponding LE u32 words. -/
theorem joystick_apply_spec (data : List Nat) (j : JoystickState) (K r : Nat)
    (hK : K ≤ 6) (hr : r < 4) (hl : data.length = 7 + 4 * K + r) :
    joystick_apply data j = { j with
      center_x := if 1 ≤ K then toInt32 (readLE32 data 7) else j.center_x
      center_y := if 2 ≤ K then toInt32 (readLE32 data 11) else j.center_y
      radius := if 3 ≤ K then toInt32 (readLE32 data 15) else j.radius
      deadzone := if 4 ≤ K then toInt32 (readLE32 data 19) else j.deadzone
      move_slot := if 5 ≤ K then toInt32 (readLE32 data 23) else j.move_slot
      enabled := if 6 ≤ K then toInt32 (readLE32 data 27) else j.enabled } := by
  interval_cases K <;> interval_cases r <;> simp [joystick_apply, hl]

/-- Progressive-prefix characterization of the SET_SLIDE_KEY payload
walk, eight fields. -/
theorem slide_apply_spec (data : List Nat) (s : SlideKeyState) (K r : Nat)
    (hK : K ≤ 8) (hr : r < 4) (hl : data.length = 7 + 4 * K + r) :
    slide_apply data s = { s with
      enabled := if 1 ≤ K then toInt32 (readLE32 data 7) else s.enabled
      trigger_key := if 2 ≤ K then toInt32 (readLE32 data 11) else s.trigger_key
      slide_x := if 3 ≤ K then toInt32 (readLE32 data 15) else s.slide_x
      slide_y := if 4 ≤ K then toInt32 (readLE32 data 19) else s.slide_y
      max_radius := if 5 ≤ K then toInt32 (readLE32 data 23) else s.max_radius
      sensitivity := if 6 ≤ K then toInt32 (readLE32 data 27) else s.sensitivity
      hold_time := if 7 ≤ K then toInt32 (readLE32 data 31) else s.hold_time
      release_delay := if 8 ≤ K then toInt32 (readLE32 data 35) else s.release_delay } := by
  interval_cases K <;> interval_cases r <;> simp [slide_apply, hl]

/-- A valid SET_JOYSTICK frame carrying only center_x = 10. -/
def c4_joy_frame : List Nat :=
  [0x53, 0x49, 0x44, 0x51] ++
    [simple_crc16 [0xA5, 10, 0, 0, 0] % 256,
     simple_crc16 [0xA5, 10, 0, 0, 0] / 256 % 256] ++
    [0xA5, 10, 0, 0, 0]

/-- A valid SET_SLIDE_KEY frame carrying only enabled = 7. -/
def c4_slide_frame : List Nat :=
  [0x53, 0x49, 0x44, 0x51] ++
    [simple_crc16 [0xA1, 7, 0, 0, 0] % 256,
     simple_crc16 [0xA1, 7, 0, 0, 0] / 256 % 256] ++
    [0xA1, 7, 0, 0, 0]

set_option maxRecDepth 10000 in
/-- Counterexample for C4 as stated: an accepted SET_JOYSTICK frame with
K = 1 does not leave "all other fields of the Config Store unchanged" —
the global command counter `stats_commands` moves from 0 to 1. -/
theorem claim_C4_counterexample :
    (process_hidden_command c4_joy_frame 0 initConfig).1 = 0 ∧
    (process_hidden_command c4_joy_frame 0 initConfig).2.stats_commands ≠
      initConfig.stats_commands := by
  decide

/-- C4 (amended): a valid SET_JOYSTICK / SET_SLIDE_KEY frame of length
`7 + 4K + r` (`r < 4`) updates precisely the first `K` optional fields of
the respective sub-state to the payload words, leaves the trailing `r`
bytes without effect, and leaves every other field of the Config Store
unchanged except `stats_commands`, which increments by one. -/
theorem claim_C4_progressive_field_update (data : List Nat) (now : Nat)
    (cfg : Config) (K r : Nat) (hr : r < 4)
    (hl : data.length = 7 + 4 * K + r)
    (hmagic : readLE32 data 0 = MAGIC_SIGNATURE)
    (hcrc : readLE16 data 4 = simple_crc16 (data.drop 6)) :
    (byteAt data 6 = 0xA5 → K ≤ 6 →
      process_hidden_command data now cfg =
        (0, { cfg with
          joystick := { cfg.joystick with
            center_x := if 1 ≤ K then toInt32 (readLE32 data 7) else cfg.joystick.center_x
            center_y := if 2 ≤ K then toInt32 (readLE32 data 11) else cfg.joystick.center_y
            radius := if 3 ≤ K then toInt32 (readLE32 data 15) else cfg.joystick.radius
            deadzone := if 4 ≤ K then toInt32 (readLE32 data 19) else cfg.joystick.deadzone
            move_slot := if 5 ≤ K then toInt32 (readLE32 data 23) else cfg.joystick.move_slot
            enabled := if 6 ≤ K then toInt32 (readLE32 data 27) else cfg.joystick.enabled }
          stats_commands := cfg.stats_commands + 1 })) ∧
    (byteAt data 6 = 0xA1 → K ≤ 8 →
      process_hidden_command data now cfg =
        (0, { cfg with
          slide_key := { cfg.slide_key with
            enabled := if 1 ≤ K then toInt32 (readLE32 data 7) else cfg.slide_key.enabled
            trigger_key := if 2 ≤ K then toInt32 (readLE32 data 11) else cfg.slide_key.trigger_key
            slide_x := if 3 ≤ K then toInt32 (readLE32 data 15) else cfg.slide_key.slide_x
            slide_y := if 4 ≤ K then toInt32 (readLE32 data 19) else cfg.slide_key.slide_y
            max_radius := if 5 ≤ K then toInt32 (readLE32 data 23) else cfg.slide_key.max_radius
            sensitivity := if 6 ≤ K then toInt32 (readLE32 data 27) else cfg.slide_key.sensitivity
            hold_time := if 7 ≤ K then toInt32 (readLE32 data 31) else cfg.slide_key.hold_time
            release_delay := if 8 ≤ K then toInt32 (readLE32 data 35) else cfg.slide_key.release_delay }
          stats_commands := cfg.stats_commands + 1 })) := by
  have h7 : ¬data.length < 7 := by omega
  constructor
  · intro hcmd hK
    have hj := joystick_apply_spec data cfg.joystick K r hK hr hl
    simp [process_hidden_command, dispatch_command, h7, hmagic, hcrc, hcmd, hj]
  · intro hcmd hK
    have hs := slide_apply_spec data cfg.slide_key K r hK hr hl
    simp [process_hidden_command, dispatch_command, h7, hmagic, hcrc, hcmd, hs]

set_option maxRecDepth 10000 in
/-- Witness for C4: concrete K = 1 frames for both commands update only
the first optional field (and the command counter). -/
theorem claim_C4_witness :
    process_hidden_command c4_joy_frame 0 initConfig =
      (0, { initConfig with
        joystick := { initConfig.joystick with center_x := 10 }
        stats_commands := 1 }) ∧
    process_hidden_command c4_slide_frame 0 initConfig =
      (0, { initConfig with
        slide_key := { initConfig.slide_key with enabled := 7 }
        stats_commands := 1 }) :=
  ⟨(claim_C4_progressive_field_update c4_joy_frame 0 initConfig 1 0 (by decide)
      (by decide) (by decide) (by decide)).1 (by decide) (by decide),
   (claim_C4_progressive_field_update c4_slide_frame 0 initConfig 1 0 (by decide)
      (by decide) (by decide) (by decide)).2 (by decide) (by decide)⟩

/-- Clamping a value already inside the interval is the identity. -/
theorem stealth_clamp_eq_self (v lo hi : Int) (h1 : lo ≤ v) (h2 : v ≤ hi) :
    stealth_clamp v lo hi = v := by
  unfold stealth_clamp
  split_ifs <;> omega

/-- C8: in cursor mode (service activated, sink present, jitter off,
cursor position on screen, key-mapping list empty so only the cursor
handler can emit, and the key not the mode-switch key), a press whose
keycode equals `cursor.last_key` emits a tap — contact at the cursor
position, then liberation — and clears `cursor.active`; every other key
event only rewrites `cursor.last_key` and emits nothing. -/
theorem claim_C8_cursor_double_press_tap (rands : List Nat) (cfg : Config)
    (keycode pressed : Int)
    (hmode : cfg.current_mode = MODE_CURSOR)
    (hkm : cfg.keymap_list = [])
    (hact : cfg.activated ≠ 0)
    (hjit : cfg.jitter_range = 0)
    (hx1 : 0 ≤ cfg.cursor.current_x)
    (hx2 : cfg.cursor.current_x ≤ cfg.screen_width - 1)
    (hy1 : 0 ≤ cfg.cursor.current_y)
    (hy2 : cfg.cursor.current_y ≤ cfg.screen_height - 1)
    (hns : ¬(keycode = cfg.mode_switch_key ∧ pressed ≠ 0)) :
    (keycode = cfg.cursor.last_key ∧ pressed ≠ 0 →
      handle_key_mapping true rands cfg keycode pressed =
        ({ cfg with
            cursor := { cfg.cursor with active := 0, last_key := keycode }
            stats_moves := cfg.stats_moves + 1 + 1 },
         [TouchEvent.contact 0 cfg.cursor.current_x cfg.cursor.current_y
            100 10 0,
          TouchEvent.liberate 0])) ∧
    (¬(keycode = cfg.cursor.last_key ∧ pressed ≠ 0) →
      handle_key_mapping true rands cfg keycode pressed =
        ({ cfg with cursor := { cfg.cursor with last_key := keycode } },
         [])) := by
  have e1 : stealth_clamp cfg.cursor.current_x 0 (cfg.screen_width - 1) =
      cfg.cursor.current_x := stealth_clamp_eq_self _ _ _ hx1 hx2
  have e2 : stealth_clamp cfg.cursor.current_y 0 (cfg.screen_height - 1) =
      cfg.cursor.current_y := stealth_clamp_eq_self _ _ _ hy1 hy2
  have e3 : stealth_clamp 100 0 255 = (100 : Int) := by decide
  have e4 : stealth_clamp 0 0 255 = (0 : Int) := by decide
  have hnj : ¬cfg.current_mode = MODE_JOYSTICK := by
    rw [hmode]
    decide
  constructor
  · intro htap
    simp only [handle_key_mapping]
    rw [if_neg hns, if_neg hnj, if_pos hmode, if_pos htap]
    simp only [send_touch_event_safe, send_fst_cursor]
    simp [hact, hjit, e1, e2, e3, e4, keymap_walk, hkm]
  · intro hother
    simp only [handle_key_mapping]
    rw [if_neg hns, if_neg hnj, if_pos hmode, if_neg hother]
    simp [keymap_walk, hkm]

/-- Cursor-mode test configuration: activated, jitter off, last_key 24. -/
def c8_cfg : Config :=
  { initConfig with
    current_mode := 0
    activated := 1
    jitter_range := 0
    cursor := { initConfig.cursor with last_key := 24 } }

/-- Witness for C8: pressing key 24 twice in a row taps at (1400, 1000)
and clears the active flag; pressing a different key 25 only rewrites
`last_key`. -/
theorem claim_C8_witness :
    handle_key_mapping true [] c8_cfg 24 1 =
      ({ c8_cfg with
          cursor := { c8_cfg.cursor with active := 0, last_key := 24 }
          stats_moves := 2 },
       [TouchEvent.contact 0 1400 1000 100 10 0, TouchEvent.liberate 0]) ∧
    handle_key_mapping true [] c8_cfg 25 1 =
      ({ c8_cfg with cursor := { c8_cfg.cursor with last_key := 25 } }, []) :=
  ⟨(claim_C8_cursor_double_press_tap [] c8_cfg 24 1 (by decide) (by decide)
      (by decide) (by decide) (by decide) (by decide) (by decide) (by decide)
      (by decide)).1 (by decide),
   (claim_C8_cursor_double_press_tap [] c8_cfg 25 1 (by decide) (by decide)
      (by decide) (by decide) (by decide) (by decide) (by decide) (by decide)
      (by decide)).2 (by decide)⟩

/-- If the first mapping matching `keycode` has an action kind other than
Tap (0) and Hold (1), a press walks the list without emitting or changing
anything. -/
theorem keymap_walk_press_no_action (hasDev : Bool) (r0 r1 : Nat)
    (cfg : Config) (keycode pressed : Int) (km : KeyMapping) :
    ∀ l : List KeyMapping,
      l.find? (fun m => m.keycode == keycode) = some km →
      km.action ≠ 0 → km.action ≠ 1 → pressed ≠ 0 →
      keymap_walk hasDev r0 r1 cfg keycode pressed l = (cfg, []) := by
  intro l
  induction l with
  | nil =>
    intro h
    simp at h
  | cons m rest ih =>
    intro hfind ha0 ha1 hp
    by_cases hm : m.keycode = keycode
    · rw [List.find?_cons_of_pos _ (by simpa using hm)] at hfind
      have hkm : m = km := by simpa using hfind
      subst hkm
      rw [keymap_walk, if_pos hm, if_pos hp, if_neg ha0, if_neg ha1]
    · rw [List.find?_cons_of_neg _ (by simpa using hm)] at hfind
      rw [keymap_walk, if_neg hm]
      exact ih hfind ha0 ha1 hp

/-- On release, the first matching mapping emits exactly the
instant-release liberation (when its flag is set, the service is
activated and the sink present) and nothing otherwise. -/
theorem keymap_walk_release (r0 r1 : Nat) (cfg : Config)
    (keycode : Int) (km : KeyMapping) :
    ∀ l : List KeyMapping,
      l.find? (fun m => m.keycode == keycode) = some km →
      (km.instant_release = 0 →
        keymap_walk true r0 r1 cfg keycode 0 l = (cfg, [])) ∧
      (km.instant_release ≠ 0 → cfg.activated ≠ 0 →
        keymap_walk true r0 r1 cfg keycode 0 l =
          ({ cfg with stats_moves := cfg.stats_moves + 1 },
           [TouchEvent.liberate km.slot])) := by
  intro l
  induction l with
  | nil =>
    intro h
    simp at h
  | cons m rest ih =>
    intro hfind
    by_cases hm : m.keycode = keycode
    · rw [List.find?_cons_of_pos _ (by simpa using hm)] at hfind
      have hkm : m = km := by simpa using hfind
      subst hkm
      constructor
      · intro hir
        rw [keymap_walk, if_pos hm, if_neg (by simp), if_neg (by simp [hir])]
      · intro hir hact
        rw [keymap_walk, if_pos hm, if_neg (by simp), if_pos hir]
        simp [send_touch_event_safe, hact,
          show stealth_clamp 0 0 255 = (0 : Int) from by decide]
    · rw [List.find?_cons_of_neg _ (by simpa using hm)] at hfind
      rw [keymap_walk, if_neg hm]
      exact ih hfind

/-- C10: when the first mapping matching a pressed key has an action kind
that is neither Tap (0) nor Hold (1) — e.g. the Swipe kind of the data
model — the mapping handler emits nothing on the press (silent mode, so
no mode handler can emit either); only the instant-release path on a
release emits, a single liberation at the mapping slot. -/
theorem claim_C10_unknown_action_emits_nothing (hasDev : Bool)
    (rands : List Nat) (cfg : Config) (keycode pressed : Int)
    (km : KeyMapping)
    (hmode : cfg.current_mode = MODE_SILENT)
    (hfind : cfg.keymap_list.find? (fun m => m.keycode == keycode) = some km)
    (ha0 : km.action ≠ 0) (ha1 : km.action ≠ 1) :
    (pressed ≠ 0 →
      (handle_key_mapping hasDev rands cfg keycode pressed).2 = []) ∧
    (km.instant_release = 0 →
      handle_key_mapping true rands cfg keycode 0 = (cfg, [])) ∧
    (km.instant_release ≠ 0 → cfg.activated ≠ 0 →
      handle_key_mapping true rands cfg keycode 0 =
        ({ cfg with stats_moves := cfg.stats_moves + 1 },
         [TouchEvent.liberate km.slot])) := by
  have hnj : ¬cfg.current_mode = MODE_JOYSTICK := by
    rw [hmode]
    decide
  have hnc : ¬cfg.current_mode = MODE_CURSOR := by
    rw [hmode]
    decide
  refine ⟨?_, ?_, ?_⟩
  · intro hp
    by_cases hsw : keycode = cfg.mode_switch_key ∧ pressed ≠ 0
    · simp [handle_key_mapping, hsw]
    · simp only [handle_key_mapping]
      rw [if_neg hsw, if_neg hnj, if_neg hnc]
      rw [keymap_walk_press_no_action hasDev _ _ cfg keycode pressed km
        cfg.keymap_list hfind ha0 ha1 hp]
      simp
  · intro hir
    have hsw : ¬(keycode = cfg.mode_switch_key ∧ (0 : Int) ≠ 0) := by simp
    simp only [handle_key_mapping]
    rw [if_neg hsw, if_neg hnj, if_neg hnc]
    rw [(keymap_walk_release _ _ cfg keycode km cfg.keymap_list hfind).1 hir]
    rfl
  · intro hir hact
    have hsw : ¬(keycode = cfg.mode_switch_key ∧ (0 : Int) ≠ 0) := by simp
    simp only [handle_key_mapping]
    rw [if_neg hsw, if_neg hnj, if_neg hnc]
    rw [(keymap_walk_release _ _ cfg keycode km cfg.keymap_list hfind).2
      hir hact]
    rfl

/-- A mapping node with the Swipe action kind (2), instant release set. -/
def c10_km : KeyMapping where
  keycode := 40
  action := 2
  instant_release := 1
  slot := 5
  click_x := 0
  click_y := 0
  click_duration := 0
  hold_x := 0
  hold_y := 0
  hold_pressure := 0

/-- Silent-mode configuration with the swipe mapping installed. -/
def c10_cfg : Config :=
  { initConfig with current_mode := 3, activated := 1,
                    keymap_list := [c10_km] }

/-- Same configuration but with the instant-release flag cleared. -/
def c10_cfg0 : Config :=
  { initConfig with current_mode := 3, activated := 1,
                    keymap_list := [{ c10_km with instant_release := 0 }] }

/-- Witness for C10 on the concrete swipe mapping: a press emits nothing;
a release emits nothing without the instant-release flag, and exactly one
liberation at slot 5 with it. -/
theorem claim_C10_witness :
    (handle_key_mapping true [] c10_cfg 40 1).2 = [] ∧
    handle_key_mapping true [] c10_cfg0 40 0 = (c10_cfg0, []) ∧
    handle_key_mapping true [] c10_cfg 40 0 =
      ({ c10_cfg with stats_moves := 1 }, [TouchEvent.liberate 5]) :=
  ⟨(claim_C10_unknown_action_emits_nothing true [] c10_cfg 40 1 c10_km
      (by decide) (by rfl) (by decide) (by decide)).1 (by decide),
   (claim_C10_unknown_action_emits_nothing true [] c10_cfg0 40 0
      { c10_km with instant_release := 0 }
      (by decide) (by rfl) (by decide) (by decide)).2.1 (by decide),
   (claim_C10_unknown_action_emits_nothing true [] c10_cfg 40 0 c10_km
      (by decide) (by rfl) (by decide) (by decide)).2.2 (by decide)
      (by decide)⟩

/-- Truncating division shrinks squares: `(a / d)² d² ≤ a²` for `d > 0`
(C integer division truncates toward zero). -/
theorem tdiv_sq_mul_sq_le (a d : Int) (hd : 0 < d) :
    a.tdiv d * a.tdiv d * (d * d) ≤ a * a := by
  have h1 : (a.tdiv d).natAbs = a.natAbs / d.natAbs := Int.natAbs_tdiv a d
  have h2 : a.natAbs / d.natAbs * d.natAbs ≤ a.natAbs := Nat.div_mul_le_self _ _
  have h3 : (a.tdiv d).natAbs * d.natAbs ≤ a.natAbs := by
    rw [h1]
    exact h2
  have h4 : (a.tdiv d).natAbs * d.natAbs * ((a.tdiv d).natAbs * d.natAbs) ≤
      a.natAbs * a.natAbs := Nat.mul_le_mul h3 h3
  have h5 : ((a.tdiv d).natAbs * d.natAbs * ((a.tdiv d).natAbs * d.natAbs) : Int) ≤
      (a.natAbs * a.natAbs : Int) := by exact_mod_cast h4
  have hq : ((a.tdiv d).natAbs : Int) * (a.tdiv d).natAbs = a.tdiv d * a.tdiv d :=
    Int.natAbs_mul_self' _
  have hdd : (d.natAbs : Int) * d.natAbs = d * d := Int.natAbs_mul_self' _
  have haa : (a.natAbs : Int) * a.natAbs = a * a := Int.natAbs_mul_self' _
  nlinarith [h5, hq, hdd, haa]

set_option maxHeartbeats 2000000 in
/-- The joystick rescale step: if the deadzone-filtered displacement
`(dx, dy)` with `dx², dy² ≤ r²` lies outside the circle
(`fast_sqrt(dx² + dy²) = d > r`), the rescaled point
`((dx·r)/d, (dy·r)/d)` lies within integer-sqrt distance `r` of the
center.  The bound `r ≤ 23170` keeps every intermediate square and sum
below 2^30, the range on which `fast_sqrt` computes the true root. -/
theorem rescale_within_radius (dx dy r d : Int)
    (hr0 : 0 ≤ r) (hrM : r ≤ 23170)
    (hdx : dx * dx ≤ r * r) (hdy : dy * dy ≤ r * r)
    (hd : d = fast_sqrt (dx * dx + dy * dy)) (hrd : r < d) :
    fast_sqrt ((dx * r).tdiv d * ((dx * r).tdiv d) +
      (dy * r).tdiv d * ((dy * r).tdiv d)) ≤ r := by
  have hS0 : (0 : Int) ≤ dx * dx + dy * dy :=
    add_nonneg (mul_self_nonneg dx) (mul_self_nonneg dy)
  have hrr : r * r ≤ 23170 * 23170 :=
    mul_le_mul hrM hrM hr0 (by norm_num)
  have hS30 : dx * dx + dy * dy < 2 ^ 30 := by nlinarith [hrr]
  obtain ⟨hd0, hdle, hdlt⟩ := fast_sqrt_isqrt _ hS0 hS30
  rw [← hd] at hdle hdlt
  have hdpos : 0 < d := lt_of_le_of_lt hr0 hrd
  have hq1 := tdiv_sq_mul_sq_le (dx * r) d hdpos
  have hq2 := tdiv_sq_mul_sq_le (dy * r) d hdpos
  set qx := (dx * r).tdiv d with hqx
  set qy := (dy * r).tdiv d with hqy
  have hN : (qx * qx + qy * qy) * (d * d) ≤ (dx * dx + dy * dy) * (r * r) := by
    nlinarith [hq1, hq2]
  have hSd : dx * dx + dy * dy ≤ d * d + 2 * d := by nlinarith [hdlt]
  have hd1 : r + 1 ≤ d := hrd
  have h2d : 2 * r * r < (2 * r + 1) * d := by nlinarith [hd1, hr0]
  have hmul2 : d * (2 * r * r) < d * ((2 * r + 1) * d) :=
    mul_lt_mul_of_pos_left h2d hdpos
  have hstep : (dx * dx + dy * dy) * (r * r) < (r + 1) * (r + 1) * (d * d) := by
    nlinarith [hSd, hmul2, hdpos, hr0, hrr]
  have hNlt : qx * qx + qy * qy < (r + 1) * (r + 1) := by
    have hdd : (0 : Int) < d * d := mul_pos hdpos hdpos
    exact lt_of_mul_lt_mul_right (lt_of_le_of_lt hN hstep) (le_of_lt hdd)
  have hN0 : (0 : Int) ≤ qx * qx + qy * qy :=
    add_nonneg (mul_self_nonneg qx) (mul_self_nonneg qy)
  have hN30 : qx * qx + qy * qy < 2 ^ 30 := by nlinarith [hrr]
  obtain ⟨hs0, hsle, hslt⟩ := fast_sqrt_isqrt _ hN0 hN30
  by_contra hcon
  push_neg at hcon
  have hcon1 : r + 1 ≤ fast_sqrt (qx * qx + qy * qy) := hcon
  have hsq : (r + 1) * (r + 1) ≤
      fast_sqrt (qx * qx + qy * qy) * fast_sqrt (qx * qx + qy * qy) :=
    mul_le_mul hcon1 hcon1 (by omega) hs0
  linarith [hsle, hNlt, hsq]

/-- Scaling a component `a ∈ [-r, r]` by `r` and dividing (truncating)
by the distance `d > r` lands back in `[-r, r]`. -/
theorem tdiv_scaled_bounds (a r d : Int) (hr0 : 0 ≤ r)
    (h1 : -r ≤ a) (h2 : a ≤ r) (hrd : r < d) :
    -r ≤ (a * r).tdiv d ∧ (a * r).tdiv d ≤ r := by
  have hq : ((a * r).tdiv d).natAbs = (a * r).natAbs / d.natAbs :=
    Int.natAbs_tdiv _ _
  have hm : (a * r).natAbs = a.natAbs * r.natAbs := Int.natAbs_mul _ _
  have ha : a.natAbs ≤ r.natAbs := by omega
  have hdn : r.natAbs + 1 ≤ d.natAbs := by omega
  have hlt : (a * r).natAbs / d.natAbs < r.natAbs + 1 := by
    rw [Nat.div_lt_iff_lt_mul (by omega : 0 < d.natAbs)]
    calc (a * r).natAbs = a.natAbs * r.natAbs := hm
      _ ≤ r.natAbs * r.natAbs := Nat.mul_le_mul_right _ ha
      _ < (r.natAbs + 1) * (r.natAbs + 1) := by
          have h : (r.natAbs + 1) * (r.natAbs + 1) =
              r.natAbs * r.natAbs + 2 * r.natAbs + 1 := by ring
          omega
      _ ≤ (r.natAbs + 1) * d.natAbs := Nat.mul_le_mul_left _ hdn
  have hqb : ((a * r).tdiv d).natAbs ≤ r.natAbs := by
    rw [hq]
    omega
  omega

/-- Each component of the recomputed joystick displacement lies in
`[-radius, radius]` (for an in-range non-negative radius the wrapping
adds and subtracts are exact). -/
theorem joystick_disp_bounds (r dz : Int) (ks : Nat) (hr0 : 0 ≤ r)
    (hrI : r < 2 ^ 31) :
    (-r ≤ (joystick_disp r dz ks).1 ∧ (joystick_disp r dz ks).1 ≤ r) ∧
    (-r ≤ (joystick_disp r dz ks).2 ∧ (joystick_disp r dz ks).2 ≤ r) := by
  have e31 : (2 : Int) ^ 31 = 2147483648 := by norm_num
  rw [e31] at hrI
  have hA : wrap32 (0 - r) = 0 - r := by
    apply wrap32_eq_self <;> rw [e31] <;> omega
  have hB : wrap32 (0 - r + r) = 0 := by
    have h : (0 : Int) - r + r = 0 := by ring
    rw [h]
    apply wrap32_eq_self <;> rw [e31] <;> norm_num
  have hC : wrap32 (0 + r) = r := by
    have h : (0 : Int) + r = r := by ring
    rw [h]
    apply wrap32_eq_self <;> rw [e31] <;> omega
  simp only [joystick_disp]
  split_ifs <;> (try simp only [hA, hB, hC]) <;> omega

set_option maxRecDepth 10000 in
/-- Counterexample for C6 as stated: already in the initial state the
View current position (0, 0) is at integer-sqrt distance 1720 from its
configured center (1400, 1000), far beyond max_radius 300 (and no code
path ever moves it). -/
theorem claim_C6_counterexample :
    ¬(fast_sqrt
        ((initConfig.view.current_x - initConfig.view.center_x) *
            (initConfig.view.current_x - initConfig.view.center_x) +
          (initConfig.view.current_y - initConfig.view.center_y) *
            (initConfig.view.current_y - initConfig.view.center_y)) ≤
      initConfig.view.max_radius) := by
  decide

set_option maxHeartbeats 1000000 in
/-- C6 (amended): every `update_joystick_state` call made with
`0 ≤ radius ≤ 23170` (beyond 23170 the C `int` distance computation
itself overflows) and a center whose radius-neighbourhood stays inside
the `int` range preserves the invariant that the joystick position is
within `radius` of its configured center under the driver's integer-sqrt
metric; a rescaled point may land strictly inside the circle, not
exactly on it, and the View position enjoys no such invariant. -/
theorem claim_C6_joystick_within_radius (hasDev : Bool) (randVal : Nat)
    (cfg : Config) (keycode pressed : Int) (c : Config)
    (hr0 : 0 ≤ cfg.joystick.radius) (hrM : cfg.joystick.radius ≤ 23170)
    (hcx1 : -2 ^ 31 + cfg.joystick.radius ≤ cfg.joystick.center_x)
    (hcx2 : cfg.joystick.center_x + cfg.joystick.radius < 2 ^ 31)
    (hcy1 : -2 ^ 31 + cfg.joystick.radius ≤ cfg.joystick.center_y)
    (hcy2 : cfg.joystick.center_y + cfg.joystick.radius < 2 ^ 31)
    (hpre : fast_sqrt
        ((cfg.joystick.current_x - cfg.joystick.center_x) *
            (cfg.joystick.current_x - cfg.joystick.center_x) +
          (cfg.joystick.current_y - cfg.joystick.center_y) *
            (cfg.joystick.current_y - cfg.joystick.center_y)) ≤
        cfg.joystick.radius)
    (hc : c = (update_joystick_state hasDev randVal cfg keycode pressed).1) :
    fast_sqrt
        ((c.joystick.current_x - c.joystick.center_x) *
            (c.joystick.current_x - c.joystick.center_x) +
          (c.joystick.current_y - c.joystick.center_y) *
            (c.joystick.current_y - c.joystick.center_y)) ≤
      c.joystick.radius := by
  subst hc
  by_cases h0 : cfg.joystick.enabled = 0 ∨ cfg.current_mode ≠ MODE_JOYSTICK
  · simp only [update_joystick_state, if_pos h0]
    exact hpre
  · simp only [update_joystick_state, if_neg h0]
    have e31 : (2 : Int) ^ 31 = 2147483648 := by norm_num
    rw [e31] at hcx1 hcx2 hcy1 hcy2
    have hrI : cfg.joystick.radius < 2 ^ 31 :=
      lt_of_le_of_lt hrM (by norm_num)
    obtain ⟨⟨hdx1, hdx2⟩, hdy1, hdy2⟩ := joystick_disp_bounds
      cfg.joystick.radius cfg.joystick.deadzone
      (joystick_toggle cfg.joystick keycode pressed) hr0 hrI
    set ks := joystick_toggle cfg.joystick keycode pressed with hks
    set dx := (joystick_disp cfg.joystick.radius cfg.joystick.deadzone ks).1
      with hdxd
    set dy := (joystick_disp cfg.joystick.radius cfg.joystick.deadzone ks).2
      with hdyd
    have hdxsq : dx * dx ≤ cfg.joystick.radius * cfg.joystick.radius := by
      nlinarith [hdx1, hdx2, hr0]
    have hdysq : dy * dy ≤ cfg.joystick.radius * cfg.joystick.radius := by
      nlinarith [hdy1, hdy2, hr0]
    have hrr : cfg.joystick.radius * cfg.joystick.radius ≤ 23170 * 23170 :=
      mul_le_mul hrM hrM hr0 (by norm_num)
    have w1 : wrap32 (cfg.joystick.center_x + dx) =
        cfg.joystick.center_x + dx := by
      apply wrap32_eq_self <;> rw [e31] <;> omega
    have w2 : wrap32 (cfg.joystick.center_y + dy) =
        cfg.joystick.center_y + dy := by
      apply wrap32_eq_self <;> rw [e31] <;> omega
    rw [w1, w2]
    have a1 : cfg.joystick.center_x + dx - cfg.joystick.center_x = dx := by
      ring
    have a2 : cfg.joystick.center_y + dy - cfg.joystick.center_y = dy := by
      ring
    rw [a1, a2]
    have w3 : wrap32 dx = dx := by
      apply wrap32_eq_self <;> rw [e31] <;> omega
    have w4 : wrap32 dy = dy := by
      apply wrap32_eq_self <;> rw [e31] <;> omega
    rw [w3, w4]
    have w5 : wrap32 (dx * dx) = dx * dx := by
      apply wrap32_eq_self
      · rw [e31]
        nlinarith [mul_self_nonneg dx]
      · rw [e31]
        nlinarith [hdxsq, hrr]
    have w6 : wrap32 (dy * dy) = dy * dy := by
      apply wrap32_eq_self
      · rw [e31]
        nlinarith [mul_self_nonneg dy]
      · rw [e31]
        nlinarith [hdysq, hrr]
    rw [w5, w6]
    have w7 : wrap32 (dx * dx + dy * dy) = dx * dx + dy * dy := by
      apply wrap32_eq_self
      · rw [e31]
        nlinarith [mul_self_nonneg dx, mul_self_nonneg dy]
      · rw [e31]
        nlinarith [hdxsq, hdysq, hrr]
    rw [w7]
    split_ifs with hvec hdist
    · simp only [send_fst_joystick]
      have w8 : wrap32 (dx * cfg.joystick.radius) =
          dx * cfg.joystick.radius := by
        apply wrap32_eq_self
        · rw [e31]
          nlinarith [hdx1, hdx2, hr0, hrr]
        · rw [e31]
          nlinarith [hdx1, hdx2, hr0, hrr]
      have w9 : wrap32 (dy * cfg.joystick.radius) =
          dy * cfg.joystick.radius := by
        apply wrap32_eq_self
        · rw [e31]
          nlinarith [hdy1, hdy2, hr0, hrr]
        · rw [e31]
          nlinarith [hdy1, hdy2, hr0, hrr]
      rw [w8, w9]
      obtain ⟨hq1a, hq1b⟩ := tdiv_scaled_bounds dx cfg.joystick.radius
        (fast_sqrt (dx * dx + dy * dy)) hr0 hdx1 hdx2 hdist
      obtain ⟨hq2a, hq2b⟩ := tdiv_scaled_bounds dy cfg.joystick.radius
        (fast_sqrt (dx * dx + dy * dy)) hr0 hdy1 hdy2 hdist
      have w10 : wrap32 (cfg.joystick.center_x +
          (dx * cfg.joystick.radius).tdiv (fast_sqrt (dx * dx + dy * dy))) =
          cfg.joystick.center_x +
            (dx * cfg.joystick.radius).tdiv (fast_sqrt (dx * dx + dy * dy)) := by
        apply wrap32_eq_self <;> rw [e31] <;> omega
      have w11 : wrap32 (cfg.joystick.center_y +
          (dy * cfg.joystick.radius).tdiv (fast_sqrt (dx * dx + dy * dy))) =
          cfg.joystick.center_y +
            (dy * cfg.joystick.radius).tdiv (fast_sqrt (dx * dx + dy * dy)) := by
        apply wrap32_eq_self <;> rw [e31] <;> omega
      rw [w10, w11]
      simp only [add_sub_cancel_left]
      exact rescale_within_radius dx dy cfg.joystick.radius _ hr0 hrM
        hdxsq hdysq rfl hdist
    · simp only [send_fst_joystick, add_sub_cancel_left]
      omega
    · simp only [send_fst_joystick]
      exact hpre
    · exact hpre

/-- Joystick-mode configuration starting at its own center. -/
def c6_cfg : Config :=
  { initConfig with
    current_mode := 2
    joystick := { initConfig.joystick with current_x := 700, current_y := 1500 } }

/-- Witness for C6 at a concrete press of the up key from the center. -/
theorem claim_C6_witness :
    fast_sqrt
        (((update_joystick_state true 0 c6_cfg 17 1).1.joystick.current_x -
            (update_joystick_state true 0 c6_cfg 17 1).1.joystick.center_x) *
            ((update_joystick_state true 0 c6_cfg 17 1).1.joystick.current_x -
              (update_joystick_state true 0 c6_cfg 17 1).1.joystick.center_x) +
          ((update_joystick_state true 0 c6_cfg 17 1).1.joystick.current_y -
            (update_joystick_state true 0 c6_cfg 17 1).1.joystick.center_y) *
            ((update_joystick_state true 0 c6_cfg 17 1).1.joystick.current_y -
              (update_joystick_state true 0 c6_cfg 17 1).1.joystick.center_y)) ≤
      (update_joystick_state true 0 c6_cfg 17 1).1.joystick.radius :=
  claim_C6_joystick_within_radius true 0 c6_cfg 17 1 _ (by decide) (by decide)
    (by decide) (by decide) (by decide) (by decide) (by decide) rfl

/-- A valid SET_MODE frame carrying the out-of-range mode value 4. -/
def c5_frame : List Nat :=
  [0x53, 0x49, 0x44, 0x51] ++
    [simple_crc16 [0xA4, 4, 0, 0, 0] % 256,
     simple_crc16 [0xA4, 4, 0, 0, 0] / 256 % 256] ++
    [0xA4, 4, 0, 0, 0]

set_option maxRecDepth 10000 in
/-- Counterexample for C5 as stated: the SET_MODE frame with mode = 4 is
accepted (returns 0) and drives `current_mode` to 4, outside
{CURSOR, VIEW, JOYSTICK, SILENT}. -/
theorem claim_C5_counterexample :
    (process_hidden_command c5_frame 0 initConfig).1 = 0 ∧
    ¬((process_hidden_command c5_frame 0 initConfig).2.current_mode =
          MODE_CURSOR ∨
      (process_hidden_command c5_frame 0 initConfig).2.current_mode =
          MODE_VIEW ∨
      (process_hidden_command c5_frame 0 initConfig).2.current_mode =
          MODE_JOYSTICK ∨
      (process_hidden_command c5_frame 0 initConfig).2.current_mode =
          MODE_SILENT) := by
  decide

/-- The `(int)` cast is the identity on values below 2^31. -/
theorem toInt32_of_lt (n : Nat) (h : n < 2 ^ 31) : toInt32 n = n := by
  unfold toInt32
  have h32 : n % 2 ^ 32 = n := Nat.mod_eq_of_lt (lt_trans h (by norm_num))
  rw [h32, if_pos]
  omega

set_option maxHeartbeats 1000000 in
/-- The command switch changes `current_mode` only through SET_MODE
(0xA4) and SET_CONFIG (0xA6), which write the cast payload word. -/
theorem dispatch_mode (data : List Nat) (now : Nat) (cfg : Config) :
    (dispatch_command data now cfg).2.current_mode = cfg.current_mode ∨
    ((byteAt data 6 = 0xA4 ∨ byteAt data 6 = 0xA6) ∧
      (dispatch_command data now cfg).2.current_mode =
        toInt32 (readLE32 data 7)) := by
  by_cases h4 : byteAt data 6 = 0xA4
  · by_cases h7 : data.length < 11
    · refine Or.inl ?_
      simp [dispatch_command, h4, h7]
    · refine Or.inr ⟨Or.inl h4, ?_⟩
      simp [dispatch_command, h4, h7]
  · by_cases h6 : byteAt data 6 = 0xA6
    · by_cases h5 : data.length < 15
      · refine Or.inl ?_
        simp [dispatch_command, h6, h5]
      · refine Or.inr ⟨Or.inr h6, ?_⟩
        simp [dispatch_command, h6, h5]
    · refine Or.inl ?_
      simp only [dispatch_command]
      split_ifs <;> rfl

/-- Same as `dispatch_mode`, lifted over validation and the
command-counter update. -/
theorem process_mode (data : List Nat) (now : Nat) (cfg : Config) :
    (process_hidden_command data now cfg).2.current_mode = cfg.current_mode ∨
    ((byteAt data 6 = 0xA4 ∨ byteAt data 6 = 0xA6) ∧
      (process_hidden_command data now cfg).2.current_mode =
        toInt32 (readLE32 data 7)) := by
  simp only [process_hidden_command]
  split_ifs
  · exact Or.inl rfl
  · exact Or.inl rfl
  · exact Or.inl rfl
  · rcases dispatch_mode data now cfg with he | ⟨hc, he⟩
    · exact Or.inl he
    · exact Or.inr ⟨hc, he⟩
  · exact dispatch_mode data now cfg

/-- The joystick handler never changes `current_mode`. -/
theorem update_joystick_mode (hasDev : Bool) (randVal : Nat) (cfg : Config)
    (keycode pressed : Int) :
    (update_joystick_state hasDev randVal cfg keycode pressed).1.current_mode =
      cfg.current_mode := by
  simp only [update_joystick_state]
  split_ifs <;> simp

/-- Walking the key-mapping list never changes `current_mode`. -/
theorem keymap_walk_mode (hasDev : Bool) (r0 r1 : Nat) (cfg : Config)
    (keycode pressed : Int) :
    ∀ l, (keymap_walk hasDev r0 r1 cfg keycode pressed l).1.current_mode =
      cfg.current_mode := by
  intro l
  induction l with
  | nil => rfl
  | cons m rest ih =>
    rw [keymap_walk]
    split_ifs <;> simp_all

/-- A key event either keeps `current_mode` or advances it cyclically
mod 4 (the mode-switch key). -/
theorem handle_mode (hasDev : Bool) (rands : List Nat) (cfg : Config)
    (keycode pressed : Int) :
    (handle_key_mapping hasDev rands cfg keycode pressed).1.current_mode =
      cfg.current_mode ∨
    (handle_key_mapping hasDev rands cfg keycode pressed).1.current_mode =
      (cfg.current_mode + 1).tmod 4 := by
  simp only [handle_key_mapping]
  split_ifs <;>
    simp [keymap_walk_mode, update_joystick_mode]

/-- The watchdog never changes `current_mode`. -/
theorem heartbeat_mode (hz now : Nat) (cfg : Config) :
    (heartbeat_timer_callback hz now cfg).current_mode = cfg.current_mode := by
  simp only [heartbeat_timer_callback]
  split_ifs <;> rfl

/-- The worker never changes `current_mode`. -/
theorem worker_mode (cfg : Config) :
    (stealth_worker_tick cfg).current_mode = cfg.current_mode := by
  simp only [stealth_worker_tick]
  split_ifs <;> rfl

/-- C5 (amended): along any run whose SET_MODE / SET_CONFIG frames carry
a mode word below 4, `current_mode` stays one of CURSOR, VIEW, JOYSTICK,
SILENT — under every key event (including the mode-switch key), watchdog
tick and worker tick.  An unrestricted accepted SET_MODE can leave the
set (see the counterexample). -/
theorem claim_C5_mode_invariant (cfg : Config) (h : ReachSafe cfg) :
    cfg.current_mode = MODE_CURSOR ∨ cfg.current_mode = MODE_VIEW ∨
    cfg.current_mode = MODE_JOYSTICK ∨ cfg.current_mode = MODE_SILENT := by
  induction h with
  | init => decide
  | @step c hc op hs ih =>
    cases op with
    | cmd data now =>
      simp only [stepOp]
      rcases process_mode data now c with he | ⟨hc46, he⟩
      · rw [he]
        exact ih
      · rw [he, toInt32_of_lt _ (lt_trans (hs hc46) (by norm_num))]
        have h4 := hs hc46
        unfold MODE_CURSOR MODE_VIEW MODE_JOYSTICK MODE_SILENT
        norm_num
        omega
    | key hasDev rands keycode pressed =>
      simp only [stepOp]
      rcases handle_mode hasDev rands c keycode pressed with he | he
      · rw [he]
        exact ih
      · rw [he]
        rcases ih with h1 | h1 | h1 | h1 <;> rw [h1] <;> decide
    | timer hz now =>
      simp only [stepOp]
      rw [heartbeat_mode]
      exact ih
    | work =>
      simp only [stepOp]
      rw [worker_mode]
      exact ih

/-- Witness for C5 at the initial state. -/
theorem claim_C5_witness :
    initConfig.current_mode = MODE_CURSOR ∨
    initConfig.current_mode = MODE_VIEW ∨
    initConfig.current_mode = MODE_JOYSTICK ∨
    initConfig.current_mode = MODE_SILENT :=
  claim_C5_mode_invariant initConfig ReachSafe.init
